import Mathlib

/-!
Verification of the pdf-service job pipeline (src/app/main.py,
src/worker/worker.py, src/app/converter.py).

Modelling conventions:
- bytes are `List Nat` (each entry < 256 where it matters);
- the base64 transport (`base64.b64encode` / `base64.b64decode`) is embedded
  explicitly over byte lists and character lists;
- the per-job slice of the Redis store (the keys `pdf_meta:` ++ job_id and
  `pdf_result:` ++ job_id) is a pair of optional values; TTL expiry is not
  modelled, so every statement about a record is about the window before its
  expiry;
- the worker (`process_job`) is a pure function from the dequeued payload and
  the two conversion backends to the ordered list of store writes and backend
  invocations it performs, together with its outcome (`Except.error` models
  the re-raised exception);
- the two conversion backends are opaque byte-in / byte-out transformers with
  possible failure, passed in as functions. In the source the html branch
  first decodes the bytes with `content.decode("utf-8", errors="ignore")`
  and hands the string to `html_to_pdf_bytes`; that decoding step is absorbed
  into the opaque renderer function, which consumes the decoded content bytes
  directly.
-/

namespace PdfService

/-- One 6-bit value to its character in the standard base64 alphabet used by
`base64.b64encode`. -/
def sixbitToChar (n : Nat) : Char :=
  if n < 26 then Char.ofNat (65 + n)
  else if n < 52 then Char.ofNat (97 + (n - 26))
  else if n < 62 then Char.ofNat (48 + (n - 52))
  else if n = 62 then '+'
  else '/'

/-- Inverse of the base64 alphabet; `none` for a character outside it. -/
def charToSixbit (c : Char) : Option Nat :=
  if 65 ≤ c.toNat ∧ c.toNat ≤ 90 then some (c.toNat - 65)
  else if 97 ≤ c.toNat ∧ c.toNat ≤ 122 then some (c.toNat - 97 + 26)
  else if 48 ≤ c.toNat ∧ c.toNat ≤ 57 then some (c.toNat - 48 + 52)
  else if c = '+' then some 62
  else if c = '/' then some 63
  else none

/-- Python `base64.b64encode` on a byte list, producing the padded character
stream. -/
def b64encode : List Nat → List Char
  | [] => []
  | [a] => [sixbitToChar (a / 4), sixbitToChar (a % 4 * 16), '=', '=']
  | [a, b] =>
      [sixbitToChar (a / 4), sixbitToChar (a % 4 * 16 + b / 16),
       sixbitToChar (b % 16 * 4), '=']
  | a :: b :: c :: rest =>
      sixbitToChar (a / 4) :: sixbitToChar (a % 4 * 16 + b / 16) ::
        sixbitToChar (b % 16 * 4 + c / 64) :: sixbitToChar (c % 64) :: b64encode rest

/-- Python `base64.b64decode` on canonical padded base64 (the only form the
pipeline ever stores); `none` models the `binascii.Error` raised on malformed
input. -/
def b64decode : List Char → Option (List Nat)
  | [] => some []
  | w :: x :: y :: z :: rest =>
      match charToSixbit w, charToSixbit x with
      | some a, some b =>
        if y = '=' then
          if z = '=' ∧ rest = [] then some [a * 4 + b / 16] else none
        else
          match charToSixbit y with
          | some c =>
            if z = '=' then
              if rest = [] then some [a * 4 + b / 16, b % 16 * 16 + c / 4] else none
            else
              match charToSixbit z, b64decode rest with
              | some d, some tail =>
                  some ((a * 4 + b / 16) :: (b % 16 * 16 + c / 4) :: (c % 4 * 64 + d) :: tail)
              | _, _ => none
          | none => none
      | _, _ => none
  | _ => none

/-- Index of the last occurrence of a character, accumulator form
(Python `str.rfind`, as an `Option`). -/
def lastIdxOfAux (c : Char) : List Char → Nat → Option Nat → Option Nat
  | [], _, acc => acc
  | x :: xs, i, acc => lastIdxOfAux c xs (i + 1) (if x = c then some i else acc)

def lastIdxOf (l : List Char) (c : Char) : Option Nat :=
  lastIdxOfAux c l 0 none

/-- Python `os.path.splitext` (posixpath): split off the extension at the last
dot after the last path separator, unless every character between the
separator and that dot is itself a dot. -/
def splitext (s : String) : String × String :=
  let p := s.data
  let sepIdx : Int := match lastIdxOf p '/' with | none => -1 | some i => (i : Int)
  let dotIdx : Int := match lastIdxOf p '.' with | none => -1 | some i => (i : Int)
  if sepIdx < dotIdx then
    let start := (sepIdx + 1).toNat
    let stop := dotIdx.toNat
    if (List.range (stop - start)).any (fun k => p.get? (start + k) != some '.') then
      (String.mk (p.take stop), String.mk (p.drop stop))
    else (s, "")
  else (s, "")

/-- Python `str.lower` (the code only compares ASCII, where `Char.toLower`
agrees with it). -/
def pyLower (s : String) : String := String.mk (s.data.map Char.toLower)

/-- Python `str.endswith`. -/
def pyEndsWith (s suf : String) : Bool := decide (suf.data <:+ s.data)

/-- The JSON object stored under the `pdf_meta:` key of a job: the Status
Record. A field is `none` when the written JSON object omits that key (the
façade reads every optional key with `dict.get` and a default). -/
structure Meta where
  status : String
  filename : Option String
  as_base64 : Option Bool
  size_bytes : Option Nat
  error : Option String
  trace : Option String
  deriving DecidableEq, Repr

/-- The job descriptor enqueued by the façade and consumed by the worker
(`payload` dict in the source); `none` models a missing dict key. -/
structure Payload where
  filename : Option String
  content_b64 : Option String
  as_base64 : Option Bool
  deriving DecidableEq, Repr

/-- The two conversion backends of worker.py lines 60-66: WeasyPrint
(`html_to_pdf_bytes`) and LibreOffice (`libreoffice_convert_bytes`). -/
inductive Backend
  | renderer
  | generic
  deriving DecidableEq, Repr

/-- One write against the per-job slice of the Redis store. -/
inductive StoreOp
  | putMeta (m : Meta)
  | putResult (b64 : String)
  deriving DecidableEq, Repr

/-- One observable step of `process_job`: a store write, or the invocation of
a conversion backend on the decoded content bytes. -/
inductive WorkerEvent
  | store (op : StoreOp)
  | convert (input : List Nat) (backend : Backend)
  deriving DecidableEq, Repr

/-- The per-job slice of the Redis store: the value under `pdf_meta:` ++
job_id (parsed) and the value under `pdf_result:` ++ job_id. -/
structure JobStore where
  meta : Option Meta
  result : Option String
  deriving DecidableEq, Repr

def JobStore.empty : JobStore := ⟨none, none⟩

def applyStoreOp (s : JobStore) : StoreOp → JobStore
  | .putMeta m => { s with meta := some m }
  | .putResult r => { s with result := some r }

def applyOps (s : JobStore) (ops : List StoreOp) : JobStore :=
  ops.foldl applyStoreOp s

/-- The store writes of an event list, in order. -/
def storeOps (evs : List WorkerEvent) : List StoreOp :=
  evs.filterMap fun e =>
    match e with
    | .store op => some op
    | _ => none

/-- Status Record written on claim (worker.py lines 38-42): only the status
key. -/
def procMeta : Meta := ⟨"processing", none, none, none, none, none⟩

/-- Status Record written on success (worker.py lines 73-82). -/
def doneMeta (filename : String) (as64 : Bool) (n : Nat) : Meta :=
  ⟨"done", some filename, some as64, some n, none, none⟩

/-- Status Record written on failure (worker.py lines 95-103): status, error
message, traceback. -/
def failedMeta (msg tb : String) : Meta :=
  ⟨"failed", none, none, none, some msg, some tb⟩

/-- Model of `traceback.format_exc()`: a non-empty diagnostic string carrying
the raised exception's message. -/
def format_exc (msg : String) : String :=
  "Traceback (most recent call last): " ++ msg

/-- Message of the ValueError raised at worker.py line 50 (source text quotes
the key name: Falta content_b64 en el payload). -/
def valueErrMissing : String := "Falta content_b64 en el payload"

/-- Message standing for the binascii.Error raised by `base64.b64decode` on
malformed input. -/
def b64ErrMsg : String := "Invalid base64-encoded string"

/-- Shallow embedding of `process_job` (worker.py lines 19-106). Arguments
`render` and `lo` are the two opaque conversion backends (spec section 2:
byte-in / byte-out transformers with possible failure); `render` consumes the
decoded content bytes (the source first turns them into a string with
`content.decode("utf-8", errors="ignore")` — that decoding belongs to the
opaque renderer here). Returns the ordered list of events the worker performs
and its outcome; `Except.error msg` is the exception re-raised at line 106
after the failed Status Record is written. -/
def processJob (payload : Payload)
    (render : List Nat → Except String (List Nat))
    (lo : List Nat → String → Except String (List Nat)) :
    List WorkerEvent × Except String Unit :=
  match payload.content_b64 with
  | none =>
      ([.store (.putMeta procMeta),
        .store (.putMeta (failedMeta valueErrMissing (format_exc valueErrMissing)))],
       .error valueErrMissing)
  | some s =>
      if s = "" then
        ([.store (.putMeta procMeta),
          .store (.putMeta (failedMeta valueErrMissing (format_exc valueErrMissing)))],
         .error valueErrMissing)
      else
        match b64decode s.data with
        | none =>
            ([.store (.putMeta procMeta),
              .store (.putMeta (failedMeta b64ErrMsg (format_exc b64ErrMsg)))],
             .error b64ErrMsg)
        | some content =>
            let filename := payload.filename.getD "document"
            let ext := pyLower (splitext filename).2
            if ext = ".html" ∨ ext = ".htm" then
              match render content with
              | .error msg =>
                  ([.store (.putMeta procMeta), .convert content .renderer,
                    .store (.putMeta (failedMeta msg (format_exc msg)))],
                   .error msg)
              | .ok pdf =>
                  ([.store (.putMeta procMeta), .convert content .renderer,
                    .store (.putResult (String.mk (b64encode pdf))),
                    .store (.putMeta
                      (doneMeta filename (payload.as_base64.getD false) pdf.length))],
                   .ok ())
            else
              match lo content filename with
              | .error msg =>
                  ([.store (.putMeta procMeta), .convert content .generic,
                    .store (.putMeta (failedMeta msg (format_exc msg)))],
                   .error msg)
              | .ok pdf =>
                  ([.store (.putMeta procMeta), .convert content .generic,
                    .store (.putResult (String.mk (b64encode pdf))),
                    .store (.putMeta
                      (doneMeta filename (payload.as_base64.getD false) pdf.length))],
                   .ok ())

/-- The body of the façade's successful submit response (main.py lines
102-108), restricted to the fields the claims mention. -/
structure SubmitResponse where
  message : String
  job_id : String
  filename : String
  deriving DecidableEq, Repr

/-- Shallow embedding of the `/generate-pdf-async` endpoint (main.py lines
69-108). `jobId` is the identifier rq assigns at enqueue time. `Except.error
413` is the PayloadTooLarge HTTPException of lines 80-84. On success the
returned `Payload` is the descriptor placed on the queue; the endpoint writes
nothing to the per-job store slice, which is threaded through unchanged. -/
def generate_pdf_async (maxFileSize : Nat) (jobId : String) (filename : String)
    (content : List Nat) (as_base64 : Bool) (store : JobStore) :
    Except Nat (SubmitResponse × Payload) × JobStore :=
  if content.length > maxFileSize then (.error 413, store)
  else
    (.ok (⟨"Job encolado exitosamente", jobId, filename⟩,
          ⟨some filename, some (String.mk (b64encode content)), some as_base64⟩),
     store)

/-- Shallow embedding of `/job-status` (main.py lines 111-126): 404 when no
live Status Record; otherwise the record itself is returned. -/
def get_job_status (store : JobStore) : Except Nat Meta :=
  match store.meta with
  | none => .error 404
  | some m => .ok m

/-- Error responses of `/job-result` (main.py lines 129-169): 404, the
202-style still-processing signal, the 500 carrying error and trace, and an
uncaught-exception case for a stored result that is not valid base64 (never
reached by pipeline-produced stores). -/
inductive ResultErr
  | notFound (detail : String)
  | stillProcessing (detail : String)
  | failed (error trace : String)
  | internal
  deriving DecidableEq, Repr

/-- Success responses of `/job-result`: the raw StreamingResponse with its
Content-Disposition filename, or the base64 JSON body. -/
inductive ResultResponse
  | streaming (pdf : List Nat) (filename : String)
  | jsonB64 (job_id filename pdf_base64 status : String)
  deriving DecidableEq, Repr

/-- Shallow embedding of `/job-result/` (main.py lines 129-193). -/
def get_job_result (job_id : String) (store : JobStore) :
    Except ResultErr ResultResponse :=
  match store.meta with
  | none => .error (.notFound "Job no encontrado o expirado")
  | some meta =>
    if meta.status = "processing" then .error (.stillProcessing "Job todavia en proceso")
    else if meta.status = "failed" then
      .error (.failed (meta.error.getD "Error desconocido") (meta.trace.getD ""))
    else
      match store.result with
      | none => .error (.notFound "Resultado no encontrado")
      | some pdf_b64 =>
        if meta.as_base64.getD false then
          .ok (.jsonB64 job_id (meta.filename.getD "document.pdf") pdf_b64 "completed")
        else
          match b64decode pdf_b64.data with
          | none => .error .internal
          | some pdf_bytes =>
            let filename0 := meta.filename.getD "document.pdf"
            let filename :=
              if pyEndsWith (pyLower filename0) ".pdf" then filename0
              else (splitext filename0).1 ++ ".pdf"
            .ok (.streaming pdf_bytes filename)

/-- Shallow embedding of the DELETE `/job/` endpoint (main.py lines 196-212):
a single two-key `r.delete(meta_key, result_key)` call, whose return value is
the number of keys that existed; 404 when it is zero. The second component is
the store slice after the call. -/
def delete_job (store : JobStore) : Except Nat String × JobStore :=
  let deleted :=
    (if store.meta.isSome then 1 else 0) + (if store.result.isSome then 1 else 0)
  let cleared : JobStore := ⟨none, none⟩
  if deleted = 0 then (.error 404, cleared)
  else (.ok "Job eliminado exitosamente", cleared)

theorem charToSixbit_sixbitToChar : ∀ n < 64, charToSixbit (sixbitToChar n) = some n := by
  decide

theorem sixbitToChar_ne_pad : ∀ n < 64, sixbitToChar n ≠ '=' := by
  decide

/-- Decoding inverts encoding on every byte list: the transport the façade and
the worker use between them is lossless. -/
theorem b64decode_b64encode :
    ∀ l : List Nat, (∀ b ∈ l, b < 256) → b64decode (b64encode l) = some l
  | [], _ => by simp [b64encode, b64decode]
  | [a], h => by
      have ha : a < 256 := h a (by simp)
      have e1 := charToSixbit_sixbitToChar (a / 4) (by omega)
      have e2 := charToSixbit_sixbitToChar (a % 4 * 16) (by omega)
      simp [b64encode, b64decode, e1, e2]
      omega
  | [a, b], h => by
      have ha : a < 256 := h a (by simp)
      have hb : b < 256 := h b (by simp)
      have e1 := charToSixbit_sixbitToChar (a / 4) (by omega)
      have e2 := charToSixbit_sixbitToChar (a % 4 * 16 + b / 16) (by omega)
      have e3 := charToSixbit_sixbitToChar (b % 16 * 4) (by omega)
      have n3 := sixbitToChar_ne_pad (b % 16 * 4) (by omega)
      simp [b64encode, b64decode, e1, e2, e3, n3]
      omega
  | a :: b :: c :: rest, h => by
      have ha : a < 256 := h a (by simp)
      have hb : b < 256 := h b (by simp)
      have hc : c < 256 := h c (by simp)
      have ih := b64decode_b64encode rest fun x hx => h x (by simp [hx])
      have e1 := charToSixbit_sixbitToChar (a / 4) (by omega)
      have e2 := charToSixbit_sixbitToChar (a % 4 * 16 + b / 16) (by omega)
      have e3 := charToSixbit_sixbitToChar (b % 16 * 4 + c / 64) (by omega)
      have e4 := charToSixbit_sixbitToChar (c % 64) (by omega)
      have n3 := sixbitToChar_ne_pad (b % 16 * 4 + c / 64) (by omega)
      have n4 := sixbitToChar_ne_pad (c % 64) (by omega)
      simp [b64encode, b64decode, e1, e2, e3, e4, n3, n4, ih]
      omega

/-- Encoding a non-empty byte list yields a non-empty character stream. -/
theorem b64encode_ne_nil {l : List Nat} (h : l ≠ []) : b64encode l ≠ [] := by
  match l with
  | [] => exact absurd rfl h
  | [a] => simp [b64encode]
  | [a, b] => simp [b64encode]
  | a :: b :: c :: rest => simp [b64encode]

/-- Exact shape of the worker's event list on any successful run: claim the
job, invoke one backend, write the Result Blob, write the done Status
Record. -/
theorem processJob_ok_shape (payload : Payload)
    (render : List Nat → Except String (List Nat))
    (lo : List Nat → String → Except String (List Nat))
    (hok : (processJob payload render lo).2 = Except.ok ()) :
    ∃ content bk pdf,
      processJob payload render lo =
        ([.store (.putMeta procMeta), .convert content bk,
          .store (.putResult (String.mk (b64encode pdf))),
          .store (.putMeta (doneMeta (payload.filename.getD "document")
            (payload.as_base64.getD false) pdf.length))], Except.ok ()) := by
  obtain ⟨pf, pc, pa⟩ := payload
  unfold processJob at hok ⊢
  dsimp only at hok ⊢
  cases pc with
  | none => simp at hok
  | some s =>
    dsimp only at hok ⊢
    by_cases hs : s = ""
    · rw [if_pos hs] at hok; simp at hok
    · rw [if_neg hs] at hok ⊢
      generalize hdec : b64decode s.data = dres at hok ⊢
      cases dres with
      | none => simp at hok
      | some content =>
        dsimp only at hok ⊢
        by_cases hext : pyLower (splitext (pf.getD "document")).2 = ".html" ∨
            pyLower (splitext (pf.getD "document")).2 = ".htm"
        · rw [if_pos hext] at hok ⊢
          generalize hr : render content = rres at hok ⊢
          cases rres with
          | error msg => simp at hok
          | ok pdf => exact ⟨content, .renderer, pdf, rfl⟩
        · rw [if_neg hext] at hok ⊢
          generalize hr : lo content (pf.getD "document") = rres at hok ⊢
          cases rres with
          | error msg => simp at hok
          | ok pdf => exact ⟨content, .generic, pdf, rfl⟩

/-- On any failing run the worker's last event is the failed Status Record
write, no Result Blob is ever written, and the re-raised message comes from
the missing-content check, the base64 decode, or one of the backends. -/
theorem processJob_error_shape (payload : Payload)
    (render : List Nat → Except String (List Nat))
    (lo : List Nat → String → Except String (List Nat)) (msg : String)
    (h : (processJob payload render lo).2 = Except.error msg) :
    ((processJob payload render lo).1.getLast? =
       some (.store (.putMeta (failedMeta msg (format_exc msg))))) ∧
    (∀ r, WorkerEvent.store (.putResult r) ∉ (processJob payload render lo).1) ∧
    (msg = valueErrMissing ∨ msg = b64ErrMsg ∨
      (∃ c, render c = Except.error msg) ∨ (∃ c f, lo c f = Except.error msg)) := by
  obtain ⟨pf, pc, pa⟩ := payload
  unfold processJob at h ⊢
  dsimp only at h ⊢
  cases pc with
  | none =>
    simp at h
    subst h
    refine ⟨rfl, by simp, Or.inl rfl⟩
  | some s =>
    dsimp only at h ⊢
    by_cases hs : s = ""
    · rw [if_pos hs] at h ⊢
      simp at h
      subst h
      refine ⟨rfl, by simp, Or.inl rfl⟩
    · rw [if_neg hs] at h ⊢
      generalize hdec : b64decode s.data = dres at h ⊢
      cases dres with
      | none =>
        simp at h
        subst h
        refine ⟨rfl, by simp, Or.inr (Or.inl rfl)⟩
      | some content =>
        dsimp only at h ⊢
        by_cases hext : pyLower (splitext (pf.getD "document")).2 = ".html" ∨
            pyLower (splitext (pf.getD "document")).2 = ".htm"
        · rw [if_pos hext] at h ⊢
          generalize hr : render content = rres at h ⊢
          cases rres with
          | error m =>
            simp at h
            subst h
            exact ⟨rfl, by simp, Or.inr (Or.inr (Or.inl ⟨content, hr⟩))⟩
          | ok pdf => simp at h
        · rw [if_neg hext] at h ⊢
          generalize hr : lo content (pf.getD "document") = rres at h ⊢
          cases rres with
          | error m =>
            simp at h
            subst h
            exact ⟨rfl, by simp, Or.inr (Or.inr (Or.inr ⟨content, pf.getD "document", hr⟩))⟩
          | ok pdf => simp at h

/-- Claim C1: for every job whose conversion succeeds, the worker writes the
Result Blob strictly before the Status Record with status done (there are
store-write positions i < j with the result write at i and the done write at
j), and replaying any prefix of the worker's store writes onto an empty
per-job store never shows status done with the Result Blob missing. -/
theorem worker_writes_result_before_done (payload : Payload)
    (render : List Nat → Except String (List Nat))
    (lo : List Nat → String → Except String (List Nat))
    (hok : (processJob payload render lo).2 = Except.ok ()) :
    (∃ i j : Nat, i < j ∧
      (∃ r, (storeOps (processJob payload render lo).1)[i]? = some (StoreOp.putResult r)) ∧
      (∃ m, (storeOps (processJob payload render lo).1)[j]? = some (StoreOp.putMeta m) ∧
        m.status = "done")) ∧
    (∀ n, (∃ m, (applyOps JobStore.empty ((storeOps (processJob payload render lo).1).take n)).meta
          = some m ∧ m.status = "done") →
      (applyOps JobStore.empty ((storeOps (processJob payload render lo).1).take n)).result.isSome
        = true) := by
  obtain ⟨content, bk, pdf, hshape⟩ := processJob_ok_shape payload render lo hok
  rw [hshape]
  simp only [storeOps, List.filterMap_cons, List.filterMap_nil]
  constructor
  · refine ⟨1, 2, by omega, ⟨String.mk (b64encode pdf), by simp⟩,
      ⟨doneMeta (payload.filename.getD "document") (payload.as_base64.getD false) pdf.length,
        by simp, rfl⟩⟩
  · intro n
    rcases n with _ | _ | _ | n
    · rintro ⟨m, hm, -⟩
      simp [applyOps, JobStore.empty] at hm
    · rintro ⟨m, hm, hdone⟩
      simp [applyOps, applyStoreOp, JobStore.empty] at hm
      rw [← hm] at hdone
      simp [procMeta] at hdone
    · intro _
      simp [applyOps, applyStoreOp, JobStore.empty]
    · intro _
      simp [applyOps, applyStoreOp, JobStore.empty, List.take_succ_cons]

/-- Witness for C1 at a concrete successful html job. -/
theorem worker_writes_result_before_done_witness :
    ((processJob ⟨some "a.html", some (String.mk (b64encode [60])), some false⟩
        (fun _ => Except.ok [37, 80, 68, 70]) (fun _ _ => Except.error "unused")).2 =
      Except.ok ()) ∧
    ((∃ i j : Nat, i < j ∧
      (∃ r, (storeOps (processJob ⟨some "a.html", some (String.mk (b64encode [60])), some false⟩
          (fun _ => Except.ok [37, 80, 68, 70]) (fun _ _ => Except.error "unused")).1)[i]? =
        some (StoreOp.putResult r)) ∧
      (∃ m, (storeOps (processJob ⟨some "a.html", some (String.mk (b64encode [60])), some false⟩
          (fun _ => Except.ok [37, 80, 68, 70]) (fun _ _ => Except.error "unused")).1)[j]? =
        some (StoreOp.putMeta m) ∧ m.status = "done")) ∧
    (∀ n, (∃ m, (applyOps JobStore.empty
          ((storeOps (processJob ⟨some "a.html", some (String.mk (b64encode [60])), some false⟩
            (fun _ => Except.ok [37, 80, 68, 70]) (fun _ _ => Except.error "unused")).1).take n)).meta
          = some m ∧ m.status = "done") →
      (applyOps JobStore.empty
          ((storeOps (processJob ⟨some "a.html", some (String.mk (b64encode [60])), some false⟩
            (fun _ => Except.ok [37, 80, 68, 70]) (fun _ _ => Except.error "unused")).1).take n)).result.isSome
        = true)) :=
  ⟨rfl, worker_writes_result_before_done _ _ _ rfl⟩

/-- Claim C2: for every job whose processing fails (the worker raises
internally or a backend fails), provided the backends report non-empty error
messages, the worker writes — as its last event — a failed Status Record
carrying the non-empty error message and a trace, writes no Result Blob, and
re-raises the exception (the hypothesis fixes the outcome to that error). -/
theorem worker_failure_contract (payload : Payload)
    (render : List Nat → Except String (List Nat))
    (lo : List Nat → String → Except String (List Nat)) (msg : String)
    (hr : ∀ c m, render c = Except.error m → m ≠ "")
    (hl : ∀ c f m, lo c f = Except.error m → m ≠ "")
    (h : (processJob payload render lo).2 = Except.error msg) :
    msg ≠ "" ∧
    (failedMeta msg (format_exc msg)).error = some msg ∧
    (failedMeta msg (format_exc msg)).trace.isSome = true ∧
    ((processJob payload render lo).1.getLast? =
      some (.store (.putMeta (failedMeta msg (format_exc msg))))) ∧
    (∀ r, WorkerEvent.store (.putResult r) ∉ (processJob payload render lo).1) := by
  obtain ⟨hlast, hnores, horigin⟩ := processJob_error_shape payload render lo msg h
  refine ⟨?_, rfl, rfl, hlast, hnores⟩
  rcases horigin with rfl | rfl | ⟨c, hc⟩ | ⟨c, f, hc⟩
  · decide
  · decide
  · exact hr c msg hc
  · exact hl c f msg hc

/-- Witness for C2 at a concrete job whose payload lacks content_b64. -/
theorem worker_failure_contract_witness :
    valueErrMissing ≠ "" ∧
    (failedMeta valueErrMissing (format_exc valueErrMissing)).error = some valueErrMissing ∧
    (failedMeta valueErrMissing (format_exc valueErrMissing)).trace.isSome = true ∧
    ((processJob ⟨some "x.docx", none, none⟩
        (fun _ => Except.ok []) (fun _ _ => Except.ok [])).1.getLast? =
      some (.store (.putMeta (failedMeta valueErrMissing (format_exc valueErrMissing))))) ∧
    (∀ r, WorkerEvent.store (.putResult r) ∉
      (processJob ⟨some "x.docx", none, none⟩
        (fun _ => Except.ok []) (fun _ _ => Except.ok [])).1) :=
  worker_failure_contract _ _ _ _ (fun _ _ h => nomatch h) (fun _ _ _ h => nomatch h) rfl

/-- Claim C3: backend dispatch is a fixed two-way branch on the filename's
extension: every conversion invocation the worker performs uses the html
renderer exactly when the lower-cased extension is .html or .htm, and the
generic office converter in every other case (unknown or absent extensions
included). -/
theorem worker_dispatch_two_way (payload : Payload)
    (render : List Nat → Except String (List Nat))
    (lo : List Nat → String → Except String (List Nat))
    (content : List Nat) (bk : Backend)
    (h : WorkerEvent.convert content bk ∈ (processJob payload render lo).1) :
    (bk = Backend.renderer ↔
      (pyLower (splitext (payload.filename.getD "document")).2 = ".html" ∨
       pyLower (splitext (payload.filename.getD "document")).2 = ".htm")) ∧
    (bk = Backend.generic ↔
      ¬(pyLower (splitext (payload.filename.getD "document")).2 = ".html" ∨
        pyLower (splitext (payload.filename.getD "document")).2 = ".htm")) := by
  obtain ⟨pf, pc, pa⟩ := payload
  unfold processJob at h
  dsimp only at h ⊢
  cases pc with
  | none => simp at h
  | some s =>
    dsimp only at h
    by_cases hs : s = ""
    · rw [if_pos hs] at h; simp at h
    · rw [if_neg hs] at h
      generalize hdec : b64decode s.data = dres at h
      cases dres with
      | none => simp at h
      | some content' =>
        dsimp only at h
        by_cases hext : pyLower (splitext (pf.getD "document")).2 = ".html" ∨
            pyLower (splitext (pf.getD "document")).2 = ".htm"
        · rw [if_pos hext] at h
          generalize hr : render content' = rres at h
          cases rres with
          | error m =>
            simp at h
            obtain ⟨-, rfl⟩ := h
            simp [hext]
          | ok pdf =>
            simp at h
            obtain ⟨-, rfl⟩ := h
            simp [hext]
        · rw [if_neg hext] at h
          generalize hr : lo content' (pf.getD "document") = rres at h
          cases rres with
          | error m =>
            simp at h
            obtain ⟨-, rfl⟩ := h
            simp [hext]
          | ok pdf =>
            simp at h
            obtain ⟨-, rfl⟩ := h
            simp [hext]

/-- Witness for C3: report.html routes to the renderer. -/
theorem worker_dispatch_two_way_witness :
    (WorkerEvent.convert [60] Backend.renderer ∈
      (processJob ⟨some "report.html", some (String.mk (b64encode [60])), some false⟩
        (fun _ => Except.ok [37]) (fun _ _ => Except.error "unused")).1) ∧
    ((Backend.renderer = Backend.renderer ↔
      (pyLower (splitext ((some "report.html" : Option String).getD "document")).2 = ".html" ∨
       pyLower (splitext ((some "report.html" : Option String).getD "document")).2 = ".htm")) ∧
     (Backend.renderer = Backend.generic ↔
      ¬(pyLower (splitext ((some "report.html" : Option String).getD "document")).2 = ".html" ∨
        pyLower (splitext ((some "report.html" : Option String).getD "document")).2 = ".htm"))) :=
  ⟨by decide,
   worker_dispatch_two_way ⟨some "report.html", some (String.mk (b64encode [60])), some false⟩
     (fun _ => Except.ok [37]) (fun _ _ => Except.error "unused") [60] Backend.renderer
     (by decide)⟩

/-- Claim C4: a submission whose content length exceeds the configured
maximum is rejected with the 413 PayloadTooLarge error and nothing is
enqueued; a submission of length at most the maximum (equality included) is
enqueued and the response returns the assigned job id immediately, without
running the worker. -/
theorem submit_size_limit (maxFileSize : Nat) (jobId filename : String)
    (content : List Nat) (as64 : Bool) (store : JobStore) :
    (content.length > maxFileSize →
      generate_pdf_async maxFileSize jobId filename content as64 store =
        (Except.error 413, store)) ∧
    (content.length ≤ maxFileSize →
      generate_pdf_async maxFileSize jobId filename content as64 store =
        (Except.ok (⟨"Job encolado exitosamente", jobId, filename⟩,
          ⟨some filename, some (String.mk (b64encode content)), some as64⟩), store)) := by
  constructor
  · intro h
    unfold generate_pdf_async
    rw [if_pos h]
  · intro h
    unfold generate_pdf_async
    rw [if_neg (by omega)]

/-- Claim C7: submit performs no Status Record write (the per-job store
slice is returned unchanged), so for a fresh job id a status query issued
before a worker claims the job answers 404 NotFound, never processing. -/
theorem submit_writes_no_status (maxFileSize : Nat) (jobId filename : String)
    (content : List Nat) (as64 : Bool) (store : JobStore)
    (hfresh : store.meta = none) :
    (generate_pdf_async maxFileSize jobId filename content as64 store).2 = store ∧
    get_job_status (generate_pdf_async maxFileSize jobId filename content as64 store).2 =
      Except.error 404 := by
  obtain ⟨sm, sr⟩ := store
  dsimp only at hfresh
  subst hfresh
  have h2 : (generate_pdf_async maxFileSize jobId filename content as64 ⟨none, sr⟩).2 =
      ⟨none, sr⟩ := by
    unfold generate_pdf_async
    split <;> rfl
  rw [h2]
  exact ⟨rfl, rfl⟩

/-- Witness for C7 on the empty store. -/
theorem submit_writes_no_status_witness :
    (generate_pdf_async 100 "j1" "a.docx" [1] false JobStore.empty).2 = JobStore.empty ∧
    get_job_status (generate_pdf_async 100 "j1" "a.docx" [1] false JobStore.empty).2 =
      Except.error 404 :=
  submit_writes_no_status 100 "j1" "a.docx" [1] false JobStore.empty rfl

/-- Claim C8: the delete endpoint succeeds exactly when a Status Record or
a Result Blob existed, its single two-key delete clears both, afterwards both
the status query and the result query answer NotFound, and a second delete of
the same job id fails with 404. -/
theorem delete_law (jid : String) (store : JobStore) :
    ((delete_job store).1 = Except.ok "Job eliminado exitosamente" ↔
      (store.meta.isSome = true ∨ store.result.isSome = true)) ∧
    ((delete_job store).1 = Except.error 404 ↔
      (store.meta = none ∧ store.result = none)) ∧
    (delete_job store).2 = JobStore.empty ∧
    get_job_status (delete_job store).2 = Except.error 404 ∧
    get_job_result jid (delete_job store).2 =
      Except.error (ResultErr.notFound "Job no encontrado o expirado") ∧
    (delete_job (delete_job store).2).1 = Except.error 404 := by
  obtain ⟨sm, sr⟩ := store
  cases sm <;> cases sr <;>
    simp [delete_job, get_job_status, get_job_result, JobStore.empty]

/-- Appending the literal .pdf always yields a name whose lower-cased form
ends with .pdf. -/
theorem pyEndsWith_append_pdf (a : String) :
    pyEndsWith (pyLower (a ++ ".pdf")) ".pdf" = true := by
  have hd : (a ++ ".pdf").data = a.data ++ ".pdf".data := by
    cases a
    rfl
  have hlow : ".pdf".data.map Char.toLower = ".pdf".data := by decide
  simp only [pyEndsWith, pyLower, hd, List.map_append, hlow, decide_eq_true_eq]
  exact List.suffix_append _ _

/-- Counterexample to C5 as stated: a concrete docx job run to done with
the base64 preference; the JSON response reports the filename report.docx,
whose extension is not normalized to .pdf. -/
theorem result_filename_not_normalized_cex :
    (applyOps JobStore.empty (storeOps (processJob
        ⟨some "report.docx", some (String.mk (b64encode [1, 2])), some true⟩
        (fun _ => Except.error "unused") (fun _ _ => Except.ok [37, 80, 68, 70])).1)).meta =
      some (doneMeta "report.docx" true 4) ∧
    get_job_result "job1"
      (applyOps JobStore.empty (storeOps (processJob
        ⟨some "report.docx", some (String.mk (b64encode [1, 2])), some true⟩
        (fun _ => Except.error "unused") (fun _ _ => Except.ok [37, 80, 68, 70])).1)) =
      Except.ok (ResultResponse.jsonB64 "job1" "report.docx"
        (String.mk (b64encode [37, 80, 68, 70])) "completed") ∧
    pyEndsWith (pyLower "report.docx") ".pdf" = false :=
  ⟨rfl, rfl, rfl⟩

/-- Claim C5 (amended): for every job with status done the result query
returns the PDF per the job's recorded encoding preference; the raw-bytes
response normalizes the reported filename's extension to .pdf, while the
base64 JSON response reports the recorded filename unchanged. -/
theorem result_encoding_and_filename (jid : String) (store : JobStore) (meta : Meta)
    (r : String) (pdf : List Nat)
    (hm : store.meta = some meta) (hs : meta.status = "done")
    (hre : store.result = some r) (hd : b64decode r.data = some pdf) :
    (meta.as_base64.getD false = true →
      get_job_result jid store =
        Except.ok (.jsonB64 jid (meta.filename.getD "document.pdf") r "completed")) ∧
    (meta.as_base64.getD false = false →
      ∃ fn, get_job_result jid store = Except.ok (.streaming pdf fn) ∧
        pyEndsWith (pyLower fn) ".pdf" = true) := by
  obtain ⟨sm, sr⟩ := store
  dsimp only at hm hre
  subst hm
  subst hre
  unfold get_job_result
  dsimp only
  rw [if_neg (by rw [hs]; decide), if_neg (by rw [hs]; decide)]
  constructor
  · intro hb
    rw [if_pos hb]
  · intro hb
    rw [if_neg (by simp [hb]), hd]
    dsimp only
    refine ⟨_, rfl, ?_⟩
    by_cases hp : pyEndsWith (pyLower (meta.filename.getD "document.pdf")) ".pdf" = true
    · rw [if_pos hp]
      exact hp
    · rw [if_neg hp]
      exact pyEndsWith_append_pdf _

/-- Witness for C5 (amended) at a concrete done store without the base64
preference. -/
theorem result_encoding_and_filename_witness :
    ∃ fn, get_job_result "j1"
        ⟨some (doneMeta "report.docx" false 4), some (String.mk (b64encode [37, 80, 68, 70]))⟩ =
      Except.ok (.streaming [37, 80, 68, 70] fn) ∧
        pyEndsWith (pyLower fn) ".pdf" = true :=
  (result_encoding_and_filename "j1"
    ⟨some (doneMeta "report.docx" false 4), some (String.mk (b64encode [37, 80, 68, 70]))⟩
    (doneMeta "report.docx" false 4) (String.mk (b64encode [37, 80, 68, 70]))
    [37, 80, 68, 70] rfl rfl rfl (by decide)).2 rfl

/-- Counterexample to C6 as stated: a concrete failing run leaves a live
failed Status Record that carries neither filename nor want_base64_result. -/
theorem status_fields_cex :
    (applyOps JobStore.empty (storeOps (processJob
        ⟨some "report.docx", some (String.mk (b64encode [1])), some true⟩
        (fun _ => Except.error "unused") (fun _ _ => Except.error "boom")).1)).meta =
      some (failedMeta "boom" (format_exc "boom")) ∧
    (failedMeta "boom" (format_exc "boom")).status = "failed" ∧
    (failedMeta "boom" (format_exc "boom")).filename = none ∧
    (failedMeta "boom" (format_exc "boom")).as_base64 = none :=
  ⟨rfl, rfl, rfl, rfl⟩

/-- Field shape of the processing Status Record. -/
theorem procMeta_fields :
    (procMeta.status = "done" → procMeta.filename.isSome = true ∧
      procMeta.as_base64.isSome = true) ∧
    (procMeta.status = "processing" → procMeta.filename = none ∧ procMeta.as_base64 = none) ∧
    (procMeta.status = "failed" → procMeta.filename = none ∧ procMeta.as_base64 = none) :=
  ⟨fun hh => absurd hh (by decide), fun _ => ⟨rfl, rfl⟩, fun hh => absurd hh (by decide)⟩

/-- Field shape of the failed Status Record. -/
theorem failedMeta_fields (msg tb : String) :
    ((failedMeta msg tb).status = "done" → (failedMeta msg tb).filename.isSome = true ∧
      (failedMeta msg tb).as_base64.isSome = true) ∧
    ((failedMeta msg tb).status = "processing" →
      (failedMeta msg tb).filename = none ∧ (failedMeta msg tb).as_base64 = none) ∧
    ((failedMeta msg tb).status = "failed" →
      (failedMeta msg tb).filename = none ∧ (failedMeta msg tb).as_base64 = none) :=
  ⟨fun hh => absurd (show ("failed" : String) = "done" from hh) (by decide),
   fun hh => absurd (show ("failed" : String) = "processing" from hh) (by decide),
   fun _ => ⟨rfl, rfl⟩⟩

/-- Field shape of the done Status Record. -/
theorem doneMeta_fields (fn : String) (a : Bool) (n : Nat) :
    ((doneMeta fn a n).status = "done" → (doneMeta fn a n).filename.isSome = true ∧
      (doneMeta fn a n).as_base64.isSome = true) ∧
    ((doneMeta fn a n).status = "processing" →
      (doneMeta fn a n).filename = none ∧ (doneMeta fn a n).as_base64 = none) ∧
    ((doneMeta fn a n).status = "failed" →
      (doneMeta fn a n).filename = none ∧ (doneMeta fn a n).as_base64 = none) :=
  ⟨fun _ => ⟨rfl, rfl⟩,
   fun hh => absurd (show ("done" : String) = "processing" from hh) (by decide),
   fun hh => absurd (show ("done" : String) = "failed" from hh) (by decide)⟩

/-- Claim C6 (amended): among the Status Records the worker writes, only
the done record carries the filename and want_base64_result fields; the
processing and failed records omit both. -/
theorem status_fields_by_state (payload : Payload)
    (render : List Nat → Except String (List Nat))
    (lo : List Nat → String → Except String (List Nat)) (m : Meta)
    (h : WorkerEvent.store (StoreOp.putMeta m) ∈ (processJob payload render lo).1) :
    (m.status = "done" → m.filename.isSome = true ∧ m.as_base64.isSome = true) ∧
    (m.status = "processing" → m.filename = none ∧ m.as_base64 = none) ∧
    (m.status = "failed" → m.filename = none ∧ m.as_base64 = none) := by
  obtain ⟨pf, pc, pa⟩ := payload
  unfold processJob at h
  dsimp only at h
  cases pc with
  | none =>
    simp at h
    rcases h with rfl | rfl
    · exact procMeta_fields
    · exact failedMeta_fields _ _
  | some s =>
    dsimp only at h
    by_cases hs : s = ""
    · rw [if_pos hs] at h
      simp at h
      rcases h with rfl | rfl
      · exact procMeta_fields
      · exact failedMeta_fields _ _
    · rw [if_neg hs] at h
      generalize hdec : b64decode s.data = dres at h
      cases dres with
      | none =>
        simp at h
        rcases h with rfl | rfl
        · exact procMeta_fields
        · exact failedMeta_fields _ _
      | some content =>
        dsimp only at h
        by_cases hext : pyLower (splitext (pf.getD "document")).2 = ".html" ∨
            pyLower (splitext (pf.getD "document")).2 = ".htm"
        · rw [if_pos hext] at h
          generalize hr : render content = rres at h
          cases rres with
          | error msg =>
            simp at h
            rcases h with rfl | rfl
            · exact procMeta_fields
            · exact failedMeta_fields _ _
          | ok pdf =>
            simp at h
            rcases h with rfl | rfl
            · exact procMeta_fields
            · exact doneMeta_fields _ _ _
        · rw [if_neg hext] at h
          generalize hr : lo content (pf.getD "document") = rres at h
          cases rres with
          | error msg =>
            simp at h
            rcases h with rfl | rfl
            · exact procMeta_fields
            · exact failedMeta_fields _ _
          | ok pdf =>
            simp at h
            rcases h with rfl | rfl
            · exact procMeta_fields
            · exact doneMeta_fields _ _ _

/-- Witness for C6 (amended) at the processing record of a concrete run. -/
theorem status_fields_by_state_witness :
    (procMeta.status = "done" → procMeta.filename.isSome = true ∧
      procMeta.as_base64.isSome = true) ∧
    (procMeta.status = "processing" → procMeta.filename = none ∧ procMeta.as_base64 = none) ∧
    (procMeta.status = "failed" → procMeta.filename = none ∧ procMeta.as_base64 = none) :=
  status_fields_by_state ⟨some "a.docx", none, none⟩
    (fun _ => Except.ok []) (fun _ _ => Except.ok []) procMeta (by decide)

/-- Claim C9: a submission with empty content is accepted by the facade
(zero never exceeds the maximum) with content_b64 equal to the empty string,
and the worker on that payload — whatever the backends do — treats the empty
string as a missing payload and terminates in failed before any conversion
is attempted (the event list holds no conversion invocation). -/
theorem empty_content_always_fails (maxFileSize : Nat) (jobId filename : String)
    (as64 : Bool) (store : JobStore)
    (render : List Nat → Except String (List Nat))
    (lo : List Nat → String → Except String (List Nat)) :
    generate_pdf_async maxFileSize jobId filename [] as64 store =
      (Except.ok (⟨"Job encolado exitosamente", jobId, filename⟩,
        ⟨some filename, some "", some as64⟩), store) ∧
    processJob ⟨some filename, some "", some as64⟩ render lo =
      ([.store (.putMeta procMeta),
        .store (.putMeta (failedMeta valueErrMissing (format_exc valueErrMissing)))],
       Except.error valueErrMissing) := by
  constructor
  · unfold generate_pdf_async
    rw [if_neg (by simp)]
    rfl
  · unfold processJob
    dsimp only
    rw [if_pos rfl]

/-- Claim C10: content and result bytes round-trip losslessly through the
base64 transport: the worker's conversion invocation receives exactly the
submitted content bytes, and for a done job retrieved without the base64
preference the raw response carries exactly the PDF bytes the backend
produced. -/
theorem base64_transport_lossless (maxFileSize : Nat) (jobId filename : String)
    (content pdf : List Nat) (store : JobStore)
    (render : List Nat → Except String (List Nat))
    (lo : List Nat → String → Except String (List Nat))
    (hc : ∀ b ∈ content, b < 256) (hne : content ≠ [])
    (hsize : content.length ≤ maxFileSize)
    (hp : ∀ b ∈ pdf, b < 256)
    (hr : render content = Except.ok pdf)
    (hl : lo content filename = Except.ok pdf) :
    ∃ bk fn,
      (generate_pdf_async maxFileSize jobId filename content false store).1 =
        Except.ok (⟨"Job encolado exitosamente", jobId, filename⟩,
          ⟨some filename, some (String.mk (b64encode content)), some false⟩) ∧
      processJob ⟨some filename, some (String.mk (b64encode content)), some false⟩ render lo =
        ([.store (.putMeta procMeta), .convert content bk,
          .store (.putResult (String.mk (b64encode pdf))),
          .store (.putMeta (doneMeta filename false pdf.length))], Except.ok ()) ∧
      get_job_result jobId (applyOps JobStore.empty (storeOps
          (processJob ⟨some filename, some (String.mk (b64encode content)), some false⟩
            render lo).1)) =
        Except.ok (.streaming pdf fn) := by
  have hsub : (generate_pdf_async maxFileSize jobId filename content false store).1 =
      Except.ok (⟨"Job encolado exitosamente", jobId, filename⟩,
        ⟨some filename, some (String.mk (b64encode content)), some false⟩) := by
    unfold generate_pdf_async
    rw [if_neg (by omega)]
  have hsne : String.mk (b64encode content) ≠ "" := by
    intro he
    exact b64encode_ne_nil hne (congrArg String.data he)
  have hdec : b64decode (String.mk (b64encode content)).data = some content :=
    b64decode_b64encode content hc
  have hget : get_job_result jobId
      ⟨some (doneMeta filename false pdf.length), some (String.mk (b64encode pdf))⟩ =
      Except.ok (.streaming pdf
        (if pyEndsWith (pyLower filename) ".pdf" = true then filename
         else (splitext filename).1 ++ ".pdf")) := by
    unfold get_job_result
    dsimp only [doneMeta, Option.getD]
    rw [if_neg (by decide), if_neg (by decide), if_neg (by decide),
      b64decode_b64encode pdf hp]
  unfold processJob
  dsimp only
  rw [if_neg hsne, hdec]
  dsimp only [Option.getD]
  by_cases hext : pyLower (splitext filename).2 = ".html" ∨
      pyLower (splitext filename).2 = ".htm"
  · rw [if_pos hext, hr]
    refine ⟨Backend.renderer,
      (if pyEndsWith (pyLower filename) ".pdf" = true then filename
       else (splitext filename).1 ++ ".pdf"), hsub, rfl, ?_⟩
    exact hget
  · rw [if_neg hext, hl]
    refine ⟨Backend.generic,
      (if pyEndsWith (pyLower filename) ".pdf" = true then filename
       else (splitext filename).1 ++ ".pdf"), hsub, rfl, ?_⟩
    exact hget

/-- Witness for C10 at a concrete two-byte submission. -/
theorem base64_transport_lossless_witness :
    ∃ bk fn,
      (generate_pdf_async 10 "j1" "doc.bin" [104, 105] false JobStore.empty).1 =
        Except.ok (⟨"Job encolado exitosamente", "j1", "doc.bin"⟩,
          ⟨some "doc.bin", some (String.mk (b64encode [104, 105])), some false⟩) ∧
      processJob ⟨some "doc.bin", some (String.mk (b64encode [104, 105])), some false⟩
          (fun _ => Except.ok [37, 80, 68, 70]) (fun _ _ => Except.ok [37, 80, 68, 70]) =
        ([.store (.putMeta procMeta), .convert [104, 105] bk,
          .store (.putResult (String.mk (b64encode [37, 80, 68, 70]))),
          .store (.putMeta (doneMeta "doc.bin" false [37, 80, 68, 70].length))],
         Except.ok ()) ∧
      get_job_result "j1" (applyOps JobStore.empty (storeOps
          (processJob ⟨some "doc.bin", some (String.mk (b64encode [104, 105])), some false⟩
            (fun _ => Except.ok [37, 80, 68, 70]) (fun _ _ => Except.ok [37, 80, 68, 70])).1)) =
        Except.ok (.streaming [37, 80, 68, 70] fn) :=
  base64_transport_lossless 10 "j1" "doc.bin" [104, 105] [37, 80, 68, 70] JobStore.empty
    (fun _ => Except.ok [37, 80, 68, 70]) (fun _ _ => Except.ok [37, 80, 68, 70])
    (by decide) (by decide) (by decide) (by decide) rfl rfl

end PdfService
